import Mathlib

/-!
Verification development for the telephony voice bridge of the
hack-europe repository (src/api/twilio_app/: realtime_bridge.py,
elevenlabs_bridge.py, voice_ws.py, plus src/api/voice_agent.py and
src/api/agent.py).

The Python functions are embedded shallowly: pure codec functions become
Lean functions over lists of bytes (Nat) and 16-bit samples (Int);
fallible code returns Option or Except (an Except.error models a raised
Python exception escaping the function); the per-call event loops become
step functions folded over event traces.
-/

namespace VoiceBridge

/-! ## Codec layer

Embeds realtime_bridge.py lines 80-134.  The identical copies in
elevenlabs_bridge.py (lines 29-80) and voice_ws.py (lines 46-58) share
these definitions; only the upsample factor differs (3 for the 24 kHz
realtime bridge, 2 for the 16 kHz elevenlabs bridge). -/

/-- The exponent search of `_linear_to_mulaw` (realtime_bridge.py lines
99-103): `exp = 7; for i in range(8): if sample <= 0x0F << (i+3): exp = i;
break` selects the first `i < 8` with `t <= 0x0F <<< (i+3)`, defaulting
to 7. -/
def expSearch (t : Nat) : Nat :=
  ((List.range 8).find? (fun i => t ≤ 0x0F <<< (i + 3))).getD 7

/-- Embeds `_linear_to_mulaw` (realtime_bridge.py lines 95-106, identically
elevenlabs_bridge.py lines 43-54): G.711 encode with bias 0x84, clip to
8031, 3-bit exponent, 4-bit mantissa, sign bit, complement output.
Returns the Python integer `255 - u`. -/
def linear_to_mulaw (sample : Int) : Int :=
  let sign : Nat := if sample < 0 then 0x80 else 0
  let s1 : Nat := min 8031 sample.natAbs
  let t : Nat := s1 + 0x84
  let exp : Nat := expSearch t
  let mant : Nat := (t >>> (exp + 3)) &&& 0x0F
  let u : Nat := sign ||| (exp <<< 4) ||| mant
  (255 : Int) - u

/-- The byte actually stored by `bytes(_linear_to_mulaw(s) for s in ...)`. -/
def mulawByte (sample : Int) : Nat :=
  (linear_to_mulaw sample).toNat

/-- One entry of the μ-law expansion table built by `_build_mulaw_expand`
(realtime_bridge.py lines 80-91; same loop body in voice_ws.py and
elevenlabs_bridge.py): for table index `u`, complement, split into
sign / exponent / mantissa, expand, clamp to the int16 range. -/
def mulawExpandEntry (u : Nat) : Int :=
  let x : Nat := 255 - u
  let sign : Nat := x &&& 0x80
  let exp : Nat := (x >>> 4) &&& 0x07
  let mant : Nat := x &&& 0x0F
  let mag : Nat := ((mant <<< 3) + 0x84) <<< exp
  let sample : Int := if sign ≠ 0 then -(mag : Int) else (mag : Int)
  max (-32768) (min 32767 sample)

/-- The 256-entry table `_MULAW_EXPAND` (memoized form of
`mulawExpandEntry`, per the build loop `for u in range(256)`). -/
def MULAW_EXPAND : List Int :=
  (List.range 256).map mulawExpandEntry

/-- struct.unpack of one little-endian signed 16-bit sample from two
bytes. -/
def toInt16 (lo hi : Nat) : Int :=
  let v : Nat := lo + 256 * hi
  if v < 32768 then (v : Int) else (v : Int) - 65536

/-- struct.unpack of a whole even-length byte string as little-endian
int16 samples. -/
def bytesToInt16s : List Nat → List Int
  | lo :: hi :: rest => toInt16 lo hi :: bytesToInt16s rest
  | _ => []

/-- struct.pack of one int16 sample to two little-endian bytes
(two-complement wrap). -/
def int16ToBytes (s : Int) : List Nat :=
  let v : Nat := (s % 65536).toNat
  [v % 256, v / 256]

/-- struct.pack of a sample list to a little-endian int16 byte string. -/
def int16sToBytes (samples : List Int) : List Nat :=
  samples.foldr (fun s acc => int16ToBytes s ++ acc) []

/-- Nearest-neighbor upsampling by an integer ratio: each sample is
repeated `r` times.  The source instantiates this inline at r = 3
(`samples_24k.extend([s, s, s])`, realtime_bridge.py line 120) and r = 2
(`samples_16k.extend([s, s])`, elevenlabs_bridge.py line 67). -/
def resampleUp (r : Nat) : List Int → List Int
  | [] => []
  | s :: rest => List.replicate r s ++ resampleUp r rest

/-- Stride sampling, as in the Python comprehension
`[samples[i] for i in range(0, len(samples), r)]`: the stepped range has
one index `i * r` for each `i` below the ceiling of `len / r`, and each
index reads the sample at that position. -/
def resampleDown (r : Nat) (xs : List Int) : List Int :=
  (List.range ((xs.length + r - 1) / r)).map (fun i => xs.getD (i * r) 0)

/-- Table lookup `_MULAW_EXPAND[b]`. -/
def mulawLookup (b : Nat) : Int :=
  MULAW_EXPAND.getD b 0

/-- Embeds `mulaw_8k_to_pcm_24k` (realtime_bridge.py lines 109-123).  The
argument models the result of `base64.b64decode(..., validate=True)`:
`none` when the base64 decode raised (caught, function returns None),
`some raw` for the decoded bytes.  A byte outside the table range would
raise an IndexError, also caught and turned into None. -/
def mulaw_8k_to_pcm_24k (b64 : Option (List Nat)) : Option (List Nat) :=
  match b64 with
  | none => none
  | some raw =>
    if raw = [] then none
    else if raw.any (fun b => 256 ≤ b) then none
    else
      let samples_8k : List Int := raw.map (fun b => mulawLookup b)
      some (int16sToBytes (resampleUp 3 samples_8k))

/-- Embeds `pcm_24k_to_mulaw_8k` (realtime_bridge.py lines 126-134).
`struct.unpack` demands a buffer of exactly `2 * n` bytes; an odd-length
buffer of three or more bytes makes it raise struct.error, which the
function does not catch — modeled as `Except.error ()`. -/
def pcm_24k_to_mulaw_8k (pcm : List Nat) : Except Unit (List Nat) :=
  let n := pcm.length / 2
  if n = 0 then .ok []
  else if pcm.length ≠ 2 * n then .error ()
  else
    let samples := bytesToInt16s pcm
    let samples_8k := resampleDown 3 samples
    .ok (samples_8k.map mulawByte)

/-- Embeds `pcm_16k_to_mulaw_8k` (elevenlabs_bridge.py lines 73-80): same shape,
stride 2. -/
def pcm_16k_to_mulaw_8k (pcm : List Nat) : Except Unit (List Nat) :=
  let n := pcm.length / 2
  if n = 0 then .ok []
  else if pcm.length ≠ 2 * n then .error ()
  else
    let samples := bytesToInt16s pcm
    let samples_8k := resampleDown 2 samples
    .ok (samples_8k.map mulawByte)

/-- Embeds `mulaw_8k_to_pcm_16k` (elevenlabs_bridge.py lines 57-70): 2x
upsample variant of the decode direction. -/
def mulaw_8k_to_pcm_16k (b64 : Option (List Nat)) : Option (List Nat) :=
  match b64 with
  | none => none
  | some raw =>
    if raw = [] then none
    else if raw.any (fun b => 256 ≤ b) then none
    else
      let samples_8k : List Int := raw.map (fun b => mulawLookup b)
      some (int16sToBytes (resampleUp 2 samples_8k))

/-! ## Pipeline variant: TTS chunking and the silence-triggered turn
machine (voice_ws.py) -/

/-- Constant `OUTBOUND_CHUNK_BYTES` (voice_ws.py line 40). -/
def OUTBOUND_CHUNK_BYTES : Nat := 160

/-- Constant `SILENCE_CHUNKS_FOR_LOG` (voice_ws.py line 34). -/
def SILENCE_CHUNKS_FOR_LOG : Nat := 50

/-- Constant `MIN_CHUNKS_FOR_WHISPER` (voice_ws.py line 36). -/
def MIN_CHUNKS_FOR_WHISPER : Nat := 25

/-- The chunk split of `_send_tts_to_call` (voice_ws.py lines 125-136):
`for i in range(0, len(audio_bytes), OUTBOUND_CHUNK_BYTES)` slices
`audio_bytes[i : i + 160]` and sends each slice as one outbound media
payload.  The stepped range has one start index `i * 160` for each `i`
below the ceiling of `len / 160`; every such slice is nonempty because
its start index is below the length, so the `if not chunk: break` guard
never fires. -/
def chunks160 (audio : List Nat) : List (List Nat) :=
  (List.range ((audio.length + OUTBOUND_CHUNK_BYTES - 1) / OUTBOUND_CHUNK_BYTES)).map
    (fun i => (audio.drop (i * OUTBOUND_CHUNK_BYTES)).take OUTBOUND_CHUNK_BYTES)

/-- The mutable turn-taking state of `handle_voice_media_stream`
(voice_ws.py lines 166-312) that the media branch reads and writes:
the utterance buffer of payload strings, the consecutive-silent-chunk
counter, and the `already_logged_2s_silence` flag. -/
structure PipelineState where
  buffer : List String
  consecSilent : Nat
  alreadyLogged : Bool
deriving DecidableEq

/-- Initial state (voice_ws.py lines 168-173). -/
def initPipelineState : PipelineState :=
  { buffer := [], consecSilent := 0, alreadyLogged := false }

/-- One `media` event of the pipeline variant (voice_ws.py lines
203-312), for an inbound-track frame with a nonempty payload.  `silent`
is the outcome of the RMS classification `rms < AUDIO_SILENCE_THRESHOLD`
(line 212).  Returns the new state together with whether control reached
the transcription branch, i.e. the buffered speech preceding the silence
window passed the `MIN_CHUNKS_FOR_WHISPER` guard (line 236). -/
def mediaStep (st : PipelineState) (payload : String) (silent : Bool) :
    PipelineState × Bool :=
  let buf := st.buffer ++ [payload]
  if silent then
    let c := st.consecSilent + 1
    if c ≥ SILENCE_CHUNKS_FOR_LOG ∧ st.alreadyLogged = false then
      let speech : List String := buf.take (buf.length - SILENCE_CHUNKS_FOR_LOG)
      ({ buffer := [], consecSilent := c, alreadyLogged := true },
        decide (speech.length ≥ MIN_CHUNKS_FOR_WHISPER))
    else
      ({ buffer := buf, consecSilent := c, alreadyLogged := st.alreadyLogged },
        false)
  else
    ({ buffer := buf, consecSilent := 0, alreadyLogged := false }, false)

/-! ## Session extraction record (voice_ws.py lines 259-301,
voice_agent.py lines 106-151) -/

/-- Embeds `EmergencyInfo` (agent.py lines 22-33): every field nullable, with
the pydantic defaults (`severity = 3`). -/
structure EmergencyInfo where
  full_name : Option String := none
  social_security_number : Option String := none
  location : Option String := none
  latitude : Option ℚ := none
  longitude : Option ℚ := none
  emergency_description : Option String := none
  category : Option String := none
  severity : Option Int := some 3
  stress_level : Option String := none
deriving DecidableEq

/-- The session record of extracted fields across the turns of one call.
In `handle_voice_media_stream` each completed turn rebinds the local
`info` to the record returned by `process_utterance` for that turn
(voice_ws.py lines 259-264); there is no field-wise merge, so the record
in effect after a sequence of turns is simply the record of the last turn
(the default record before any turn completes). -/
def sessionExtraction (turns : List EmergencyInfo) : EmergencyInfo :=
  turns.foldl (fun _ e => e) {}

/-! ## Realtime orchestrator (realtime_bridge.py, `openai_to_twilio`
lines 315-400 with `_handle_tool_call` lines 261-303 and
`_end_call_via_twilio` lines 305-313) -/

/-- The six tool-schema fields of `create_emergency_case`
(realtime_bridge.py lines 55-74), as read out of the parsed arguments by
`_handle_tool_call` via `args.get(...)`: a missing key yields None. -/
structure ToolArgs where
  full_name : Option String := none
  social_security_number : Option String := none
  location : Option String := none
  emergency_description : Option String := none
  category : Option String := none
  severity : Option Int := none
deriving DecidableEq

/-- At least one of the six required fields is missing. -/
def missingRequired (a : ToolArgs) : Prop :=
  a.full_name = none ∨ a.social_security_number = none ∨
  a.location = none ∨ a.emergency_description = none ∨
  a.category = none ∨ a.severity = none

/-- All six required fields are present. -/
def allSixPresent (a : ToolArgs) : Prop :=
  a.full_name.isSome = true ∧ a.social_security_number.isSome = true ∧
  a.location.isSome = true ∧ a.emergency_description.isSome = true ∧
  a.category.isSome = true ∧ a.severity.isSome = true

/-- One item of `response.output` in a `response.done` event
(realtime_bridge.py lines 378-386).  For a function-call item, `args`
models `json.loads(output_item.get("arguments"))` followed by the
pydantic `EmergencyInfo(...)` construction: `none` when that raises
(caught inside `_handle_tool_call` before `create_case` runs). -/
inductive OutputItem where
  | functionCall (callId : String) (fnName : String) (args : Option ToolArgs)
  | other
deriving DecidableEq

/-- Events of the OpenAI-side loop `openai_to_twilio` (dispatch on
`data.get("type")`, realtime_bridge.py lines 336-389).  An audio delta
carries the base64-decoded PCM payload, or `none` when the event has no
`delta`/`audio` field. -/
inductive RtEvent where
  | audioDelta (pcm : Option (List Nat))
  | audioDone
  | responseDone (output : List OutputItem)
  | errorEvent
  | otherEvent
deriving DecidableEq

/-- Observable state of one realtime call: the `ai_speaking` flag and
`case_created` flag of the Python closures, plus counters for the
externally visible operations the claims speak about — invocations of
`EmergencyAgent.create_case`, Twilio end-call REST updates, and outbound
`media` events — and whether the loop has exited (`break` or an escaped
exception). -/
structure BridgeState where
  aiSpeaking : Bool
  caseCreated : Bool
  createCalls : Nat
  endCalls : Nat
  mediaSent : Nat
  exited : Bool
deriving DecidableEq

/-- Loop state on entry (realtime_bridge.py lines 206-207, 318). -/
def initBridgeState : BridgeState :=
  { aiSpeaking := false, caseCreated := false, createCalls := 0,
    endCalls := 0, mediaSent := 0, exited := false }

/-- Whether `_handle_tool_call` reaches the `create_case` invocation
(realtime_bridge.py lines 267-289): only for the `create_emergency_case`
function name, and only when argument parsing did not raise.  No check
of the six required fields is performed. -/
def toolCallCreates (fnName : String) (args : Option ToolArgs) : Bool :=
  fnName = "create_emergency_case" && args.isSome

/-- Effect of one `response.done` output item (realtime_bridge.py lines
379-386): any function-call item triggers `_handle_tool_call` and then
sets `case_created = True`, whatever the name or arguments. -/
def outputItemStep (s : BridgeState) (item : OutputItem) : BridgeState :=
  match item with
  | .functionCall _ fnName args =>
    { s with
      createCalls := s.createCalls + (if toolCallCreates fnName args then 1 else 0),
      caseCreated := true }
  | .other => s

/-- One iteration of `openai_to_twilio` (realtime_bridge.py lines
321-389).  A `response.output_audio.delta` sets `ai_speaking`, then
transcodes and forwards nonempty audio; a struct.error escaping
`pcm_24k_to_mulaw_8k` ends the loop through the outer handler.  A
`response.output_audio.done` clears `ai_speaking` and, once a case was
created, performs the end-call control operation and breaks. -/
def rtStep (s : BridgeState) (e : RtEvent) : BridgeState :=
  if s.exited then s
  else
    match e with
    | .audioDelta pcm =>
      let s1 := { s with aiSpeaking := true }
      match pcm with
      | none => s1
      | some bytes =>
        match pcm_24k_to_mulaw_8k bytes with
        | .error _ => { s1 with exited := true }
        | .ok ulaw =>
          if ulaw = [] then s1
          else { s1 with mediaSent := s1.mediaSent + 1 }
    | .audioDone =>
      let s1 := { s with aiSpeaking := false }
      if s1.caseCreated then
        { s1 with endCalls := s1.endCalls + 1, exited := true }
      else s1
    | .responseDone output => output.foldl outputItemStep s
    | .errorEvent => s
    | .otherEvent => s

/-- The loop over a whole backend event trace. -/
def rtRun (trace : List RtEvent) (s : BridgeState) : BridgeState :=
  trace.foldl rtStep s

/-- A trace event holding at least one function-call output item. -/
def hasFunctionCall : RtEvent → Bool
  | .responseDone output =>
    output.any (fun item =>
      match item with
      | .functionCall _ _ _ => true
      | .other => false)
  | _ => false

/-- A well-formed goodbye audio delta: payload present and its
transcoding succeeds with a nonempty μ-law chunk. -/
def goodDelta (e : RtEvent) : Prop :=
  ∃ pcm out, e = RtEvent.audioDelta (some pcm) ∧
    pcm_24k_to_mulaw_8k pcm = .ok out ∧ out ≠ []

/-! ## Echo suppression (inbound direction) -/

/-- Constant `ECHO_COOLDOWN_S` of the realtime bridge (realtime_bridge.py line
208). -/
def ECHO_COOLDOWN_S : ℚ := 1

/-- Constant `ECHO_COOLDOWN_S` of the elevenlabs bridge (elevenlabs_bridge.py
line 127). -/
def ELEVEN_ECHO_COOLDOWN_S : ℚ := 3 / 2

/-- Inbound handling of one Twilio `media` event by `twilio_to_openai`
(realtime_bridge.py lines 231-251): drop while `ai_speaking` or within
the cooldown after `ai_done_at`; then require the inbound track and a
truthy payload; forward the transcoded audio when nonempty.  `payload`
is `none` when the media object has no truthy payload, `some b64` giving
the base64-decode outcome otherwise.  The result is the PCM appended to
the backend, `none` when nothing is sent. -/
def forwardInbound (aiSpeaking : Bool) (now aiDoneAt : ℚ) (track : String)
    (payload : Option (Option (List Nat))) : Option (List Nat) :=
  if aiSpeaking = true ∨ now - aiDoneAt < ECHO_COOLDOWN_S then none
  else if track ≠ "inbound" then none
  else
    match payload with
    | none => none
    | some b64 =>
      match mulaw_8k_to_pcm_24k b64 with
      | none => none
      | some pcm => if pcm = [] then none else some pcm

/-- Inbound handling of one Twilio `media` event by
`twilio_to_elevenlabs` (elevenlabs_bridge.py lines 136-173): drop within
the cooldown after `last_agent_audio_at`; then require a truthy payload
and forward the nonempty transcode. -/
def elevenForwardInbound (now lastAgentAudioAt : ℚ)
    (payload : Option (Option (List Nat))) : Option (List Nat) :=
  if now - lastAgentAudioAt < ELEVEN_ECHO_COOLDOWN_S then none
  else
    match payload with
    | none => none
    | some b64 =>
      match mulaw_8k_to_pcm_16k b64 with
      | none => none
      | some pcm => if pcm = [] then none else some pcm

/-! ## Helper lemmas -/

/-- The Python loop defaults to 7 and range(8) only ever assigns values
below 8, so the selected exponent is at most 7. -/
theorem expSearch_le_seven (t : Nat) : expSearch t ≤ 7 := by
  unfold expSearch
  cases h : (List.range 8).find? (fun i => t ≤ 0x0F <<< (i + 3)) with
  | none => simp
  | some i =>
    have hmem := List.mem_of_find?_eq_some h
    have hlt : i < 8 := List.mem_range.mp hmem
    simpa using Nat.lt_succ_iff.mp hlt

theorem or_lt_256 {a b : Nat} (ha : a < 256) (hb : b < 256) : a ||| b < 256 := by
  have h := Nat.or_lt_two_pow (n := 8) (by simpa using ha) (by simpa using hb)
  simpa using h

/-- The assembled complement byte `u` is below 256 for every input. -/
theorem mulaw_u_lt_256 (sample : Int) :
    ((if sample < 0 then 0x80 else 0) |||
      (expSearch (min 8031 sample.natAbs + 0x84) <<< 4) |||
      ((min 8031 sample.natAbs + 0x84) >>>
        (expSearch (min 8031 sample.natAbs + 0x84) + 3) &&& 0x0F)) < 256 := by
  apply or_lt_256
  · apply or_lt_256
    · split <;> norm_num
    · have h := expSearch_le_seven (min 8031 sample.natAbs + 0x84)
      have : expSearch (min 8031 sample.natAbs + 0x84) <<< 4 ≤ 7 <<< 4 := by
        simpa [Nat.shiftLeft_eq] using Nat.mul_le_mul_right 16 h
      omega
  · have h := Nat.and_le_right (n := (min 8031 sample.natAbs + 0x84) >>>
      (expSearch (min 8031 sample.natAbs + 0x84) + 3)) (m := 0x0F)
    omega

/-- Shared range fact: the encoder output always lies in [0, 255]. -/
theorem linear_to_mulaw_range (sample : Int) :
    0 ≤ linear_to_mulaw sample ∧ linear_to_mulaw sample ≤ 255 := by
  have hu := mulaw_u_lt_256 sample
  simp only [linear_to_mulaw]
  omega

/-! ## Claim C10 -/

/-- Claim C10: the μ-law encoder is total with in-range output.  For
every integer input sample, including values outside the 16-bit range,
`_linear_to_mulaw` returns an integer in [0, 255]; the exponent search
terminates with exp at most 7 because min(8031, |sample|) + 0x84 is at
most 0x0F <<< 10; hence assembling the outputs with `bytes(...)` never
fails. -/
theorem C10_encoder_total_in_range (sample : Int) :
    (0 ≤ linear_to_mulaw sample ∧ linear_to_mulaw sample ≤ 255) ∧
    expSearch (min 8031 sample.natAbs + 0x84) ≤ 7 ∧
    min 8031 sample.natAbs + 0x84 ≤ 0x0F <<< 10 := by
  refine ⟨linear_to_mulaw_range sample, expSearch_le_seven _, ?_⟩
  have : min 8031 sample.natAbs ≤ 8031 := Nat.min_le_left _ _
  simp only [Nat.shiftLeft_eq]
  omega

/-! ## Claim C3 -/

/-- Round trip of one μ-law byte: decode through the 256-entry table,
then re-encode. -/
def mulawRoundTrip (b : Nat) : Int :=
  linear_to_mulaw (mulawExpandEntry b)

/-- Claim C3 counterexample: byte 255 decodes to sample 132 (the table
omits the standard G.711 subtraction of the 0x84 bias), which re-encodes
to byte 215 — a deviation of 40 code steps, not at most one quantization
step. -/
theorem C3_counterexample :
    mulawRoundTrip 255 = 215 ∧ ¬ (mulawRoundTrip 255 - 255).natAbs ≤ 1 := by
  constructor
  · rfl
  · decide

set_option maxRecDepth 100000

/-- Claim C3 (amended): `encode(decode(b))` is a valid byte for every
μ-law byte `b` and deviates from `b` by at most 40 code steps (the bound
is attained, for example at b = 255).  The one-quantization-step round
trip of the original claim fails because the expansion table omits the
final bias subtraction of standard G.711 and because the encoder clips
magnitudes at 8031 while the table produces magnitudes up to 32256. -/
theorem C3_roundtrip_bounded (b : Fin 256) :
    0 ≤ mulawRoundTrip b.val ∧ mulawRoundTrip b.val ≤ 255 ∧
    (mulawRoundTrip b.val - b.val).natAbs ≤ 40 := by
  refine ⟨(linear_to_mulaw_range _).1, (linear_to_mulaw_range _).2, ?_⟩
  revert b
  decide

/-! ## Claim C4 -/

/-- Claim C4: an inbound media frame that arrives while the assistant is
speaking, or within the echo-suppression cooldown after it finished, is
not forwarded to the backend: `twilio_to_openai` drops it before any
append-audio send (realtime_bridge.py line 234), and
`twilio_to_elevenlabs` drops it during its cooldown window
(elevenlabs_bridge.py line 153). -/
theorem C4_echo_suppression_drops :
    (∀ (aiSpeaking : Bool) (now aiDoneAt : ℚ) (track : String)
        (payload : Option (Option (List Nat))),
      aiSpeaking = true ∨ now - aiDoneAt < ECHO_COOLDOWN_S →
      forwardInbound aiSpeaking now aiDoneAt track payload = none) ∧
    (∀ (now lastAgentAudioAt : ℚ) (payload : Option (Option (List Nat))),
      now - lastAgentAudioAt < ELEVEN_ECHO_COOLDOWN_S →
      elevenForwardInbound now lastAgentAudioAt payload = none) := by
  constructor
  · intro aiSpeaking now aiDoneAt track payload h
    unfold forwardInbound
    rw [if_pos h]
  · intro now lastAgentAudioAt payload h
    unfold elevenForwardInbound
    rw [if_pos h]

/-- Claim C4 witness: a concrete inbound frame with a decodable payload
is dropped while `ai_speaking` is set even far outside the cooldown
window, and an elevenlabs frame is dropped right after agent audio. -/
theorem C4_witness :
    forwardInbound true 50 0 "inbound" (some (some [255, 0])) = none ∧
    elevenForwardInbound 0 0 (some (some [255, 0])) = none := by
  constructor
  · exact C4_echo_suppression_drops.1 true 50 0 "inbound" (some (some [255, 0]))
      (Or.inl rfl)
  · refine C4_echo_suppression_drops.2 0 0 (some (some [255, 0])) ?_
    norm_num [ELEVEN_ECHO_COOLDOWN_S]

/-! ## Claim C5 -/

/-- Claim C5 counterexample: a linear-PCM byte string of odd length 3
makes both encode-direction conversion functions raise struct.error
(modeled as `Except.error`) instead of returning an empty result:
`struct.unpack` demands exactly `2 * (len // 2)` bytes and the call is
not wrapped in any handler. -/
theorem C5_counterexample :
    pcm_24k_to_mulaw_8k [0, 0, 0] = .error () ∧
    pcm_16k_to_mulaw_8k [0, 0, 0] = .error () := by
  constructor <;> rfl

/-- Claim C5 (amended): the decode-direction functions indeed return
None on malformed input (failed base64 decode, empty payload) and never
raise, but the encode direction returns an empty result only for inputs
of fewer than 2 bytes: `pcm_24k_to_mulaw_8k` and `pcm_16k_to_mulaw_8k`
succeed exactly on inputs of even length or length 1, and raise
struct.error on every odd-length input of 3 bytes or more. -/
theorem C5_malformed_input_behavior (pcm : List Nat) :
    ((pcm_24k_to_mulaw_8k pcm).isOk = true ↔
      (pcm.length % 2 = 0 ∨ pcm.length = 1)) ∧
    ((pcm_16k_to_mulaw_8k pcm).isOk = true ↔
      (pcm.length % 2 = 0 ∨ pcm.length = 1)) ∧
    (pcm.length < 2 → pcm_24k_to_mulaw_8k pcm = .ok []) ∧
    mulaw_8k_to_pcm_24k none = none ∧
    mulaw_8k_to_pcm_24k (some []) = none ∧
    mulaw_8k_to_pcm_16k none = none ∧
    mulaw_8k_to_pcm_16k (some []) = none := by
  refine ⟨?_, ?_, ?_, rfl, rfl, rfl, rfl⟩
  · simp only [pcm_24k_to_mulaw_8k]
    split_ifs with h1 h2 <;> simp [Except.isOk, Except.toBool] <;> omega
  · simp only [pcm_16k_to_mulaw_8k]
    split_ifs with h1 h2 <;> simp [Except.isOk, Except.toBool] <;> omega
  · intro h
    simp only [pcm_24k_to_mulaw_8k]
    rw [if_pos (by omega)]

/-- Claim C5 witness: the amended theorem evaluated at the concrete
odd-length three-byte input certifies the raise, and at a two-byte input
certifies success. -/
theorem C5_witness :
    (pcm_24k_to_mulaw_8k [0, 0, 0]).isOk ≠ true ∧
    (pcm_24k_to_mulaw_8k [0, 0]).isOk = true := by
  constructor
  · intro h
    rcases (C5_malformed_input_behavior [0, 0, 0]).1.mp h with h2 | h2 <;> simp_all
  · exact (C5_malformed_input_behavior [0, 0]).1.mpr (Or.inl rfl)

/-! ## Claim C6 -/

/-- A start index of the stepped range lies strictly below the buffer
length. -/
theorem chunk_start_lt {n i k : Nat} (hk : 0 < k)
    (hi : i < (n + k - 1) / k) : i * k < n := by
  have h1 : (i + 1) * k ≤ ((n + k - 1) / k) * k :=
    Nat.mul_le_mul_right k hi
  have h2 : ((n + k - 1) / k) * k ≤ n + k - 1 := Nat.div_mul_le_self _ _
  have h3 : (i + 1) * k = i * k + k := by ring
  omega

/-- Every emitted TTS chunk is nonempty and at most 160 bytes. -/
theorem chunks160_mem_bounds (audio : List Nat) :
    ∀ c ∈ chunks160 audio, c ≠ [] ∧ c.length ≤ OUTBOUND_CHUNK_BYTES := by
  intro c hc
  unfold chunks160 at hc
  rcases List.mem_map.mp hc with ⟨i, hi, rfl⟩
  have hi' : i < (audio.length + OUTBOUND_CHUNK_BYTES - 1) / OUTBOUND_CHUNK_BYTES :=
    List.mem_range.mp hi
  have hstart : i * OUTBOUND_CHUNK_BYTES < audio.length :=
    chunk_start_lt (by norm_num [OUTBOUND_CHUNK_BYTES]) hi'
  constructor
  · have hpos : 0 < ((audio.drop (i * OUTBOUND_CHUNK_BYTES)).take
        OUTBOUND_CHUNK_BYTES).length := by
      simp only [List.length_take, List.length_drop]
      have : (0 : Nat) < OUTBOUND_CHUNK_BYTES := by norm_num [OUTBOUND_CHUNK_BYTES]
      omega
    exact List.ne_nil_of_length_pos hpos
  · exact List.length_take_le _ _

/-- Every chunk except possibly the last is exactly 160 bytes. -/
theorem chunks160_full_except_last (audio : List Nat) :
    ∀ i, i + 1 < (chunks160 audio).length →
      ((chunks160 audio).getD i []).length = OUTBOUND_CHUNK_BYTES := by
  intro i hi
  have hk : (0 : Nat) < OUTBOUND_CHUNK_BYTES := by norm_num [OUTBOUND_CHUNK_BYTES]
  have hlen : (chunks160 audio).length =
      (audio.length + OUTBOUND_CHUNK_BYTES - 1) / OUTBOUND_CHUNK_BYTES := by
    simp [chunks160]
  rw [hlen] at hi
  have hnext : (i + 1) * OUTBOUND_CHUNK_BYTES < audio.length :=
    chunk_start_lt hk hi
  have hi0 : i < (audio.length + OUTBOUND_CHUNK_BYTES - 1) / OUTBOUND_CHUNK_BYTES := by
    omega
  have hgd : (chunks160 audio).getD i [] =
      (audio.drop (i * OUTBOUND_CHUNK_BYTES)).take OUTBOUND_CHUNK_BYTES := by
    unfold chunks160
    rw [List.getD_eq_getElem _ _ (by simpa using hi0)]
    simp
  rw [hgd]
  simp only [List.length_take, List.length_drop]
  have h3 : (i + 1) * OUTBOUND_CHUNK_BYTES =
      i * OUTBOUND_CHUNK_BYTES + OUTBOUND_CHUNK_BYTES := by ring
  omega

/-- Claim C6 counterexample: a 170-byte TTS buffer is sent as a 160-byte
chunk followed by a 10-byte chunk, so an outbound media payload of
exactly 160 bytes is not guaranteed; and the realtime bridge transcodes
a 640-byte PCM delta into a single 107-byte μ-law payload. -/
theorem C6_counterexample :
    ((chunks160 (List.replicate 170 0)).getD 1 []).length = 10 ∧
    (pcm_24k_to_mulaw_8k (List.replicate 640 0)).map List.length = .ok 107 := by
  constructor
  · rfl
  · rfl

/-- Claim C6 (amended): the pipeline TTS sender never emits an empty or
oversized chunk, and every chunk except possibly the final one is
exactly 160 bytes (20 ms at 8 kHz μ-law); the final chunk may be
shorter, and the realtime bridge forwards each backend delta as one
payload whose size tracks the delta, so the fixed 160-byte guarantee of
the original claim does not hold. -/
theorem C6_chunk_sizes (audio : List Nat) :
    (∀ c ∈ chunks160 audio, c ≠ [] ∧ c.length ≤ OUTBOUND_CHUNK_BYTES) ∧
    (∀ i, i + 1 < (chunks160 audio).length →
      ((chunks160 audio).getD i []).length = OUTBOUND_CHUNK_BYTES) :=
  ⟨chunks160_mem_bounds audio, chunks160_full_except_last audio⟩

/-- Claim C6 witness: on the concrete 170-byte buffer, the non-final
chunk has exactly 160 bytes. -/
theorem C6_witness :
    ((chunks160 (List.replicate 170 0)).getD 0 []).length =
      OUTBOUND_CHUNK_BYTES := by
  refine (C6_chunk_sizes (List.replicate 170 0)).2 0 ?_
  decide

/-! ## Claim C7 -/

/-- Claim C7: when the consecutive-silence counter crosses the trigger
threshold but the utterance buffer holds fewer than
`MIN_CHUNKS_FOR_WHISPER` (25) speech chunks ahead of the 50-chunk
silence window, the pipeline variant does not reach the transcription
call: the media step reports `false` for the transcription branch. -/
theorem C7_short_utterance_skips_whisper (st : PipelineState) (payload : String)
    (htrig : st.consecSilent + 1 ≥ SILENCE_CHUNKS_FOR_LOG ∧
      st.alreadyLogged = false)
    (hshort : ((st.buffer ++ [payload]).take
      ((st.buffer ++ [payload]).length - SILENCE_CHUNKS_FOR_LOG)).length <
        MIN_CHUNKS_FOR_WHISPER) :
    (mediaStep st payload true).2 = false := by
  unfold mediaStep
  simp only [if_pos trivial, if_pos htrig]
  simpa using Nat.not_le.mpr hshort

/-- Claim C7 witness: with 60 buffered chunks, a silence counter at 49
and the silence log not yet emitted, the triggering silent chunk leaves
only 11 speech chunks ahead of the window, and transcription is not
invoked. -/
theorem C7_witness :
    (mediaStep
      { buffer := List.replicate 60 "p", consecSilent := 49,
        alreadyLogged := false } "q" true).2 = false := by
  refine C7_short_utterance_skips_whisper _ "q" ⟨?_, rfl⟩ ?_
  · norm_num [SILENCE_CHUNKS_FOR_LOG]
  · simp [SILENCE_CHUNKS_FOR_LOG, MIN_CHUNKS_FOR_WHISPER]

/-! ## Claim C8 -/

theorem resampleUp_length (r : Nat) (xs : List Int) :
    (resampleUp r xs).length = xs.length * r := by
  induction xs with
  | nil => simp [resampleUp]
  | cons x rest ih =>
    simp only [resampleUp, List.length_append, List.length_replicate,
      List.length_cons, ih]
    ring

/-- Claim C8: nearest-neighbor resampling is length-exact and reversible
in length.  Upsampling a buffer of N samples by an integer ratio r
repeats each sample r times, giving exactly N * r samples, and stride
downsampling that result by r gives exactly N samples back.  The source
instantiates the pair at r = 3 (8 kHz to 24 kHz and back) and r = 2
(8 kHz to 16 kHz and back). -/
theorem C8_resample_length_roundtrip (r : Nat) (xs : List Int) (hr : 0 < r) :
    (resampleUp r xs).length = xs.length * r ∧
    (resampleDown r (resampleUp r xs)).length = xs.length := by
  refine ⟨resampleUp_length r xs, ?_⟩
  simp only [resampleDown, List.length_map, List.length_range,
    resampleUp_length r xs]
  have h1 : xs.length * r + r - 1 = r * xs.length + (r - 1) := by
    have : xs.length * r = r * xs.length := Nat.mul_comm _ _
    omega
  rw [h1, Nat.mul_add_div hr, Nat.div_eq_of_lt (by omega)]
  omega

/-- Claim C8 witness: at ratio 3 and a concrete two-sample buffer, the
upsampled length is 6 and the round trip restores length 2. -/
theorem C8_witness :
    (resampleUp 3 [40, -7]).length = 2 * 3 ∧
    (resampleDown 3 (resampleUp 3 [40, -7])).length = 2 :=
  C8_resample_length_roundtrip 3 [40, -7] (by norm_num)

/-! ## Claim C9 -/

/-- A first-turn extraction with name and location already provided. -/
def infoTurnOne : EmergencyInfo :=
  { full_name := some "Tom Larsson", location := some "Stockholm" }

/-- A later-turn extraction whose name field is null again. -/
def infoTurnTwo : EmergencyInfo :=
  { location := some "Stockholm", emergency_description := some "out of fuel" }

/-- Claim C9 counterexample: after turn one the session record has a
non-null name; after a second turn whose extraction carries a null name,
the record in effect has a null name again — a later null does clear a
previously non-null field, so per-field last-write-wins fails. -/
theorem C9_counterexample :
    (sessionExtraction [infoTurnOne]).full_name = some "Tom Larsson" ∧
    (sessionExtraction [infoTurnOne, infoTurnTwo]).full_name = none := by
  constructor <;> rfl

/-- Claim C9 (amended): the session keeps no per-field merge of the
extractions.  Each completed turn rebinds the record wholesale, so after
any turn sequence the record in effect is exactly the most recent
extraction — last-write-wins holds at whole-record granularity, and a
field that a later extraction leaves null is null in the session record
regardless of earlier turns. -/
theorem C9_last_record_wins (turns : List EmergencyInfo) (e : EmergencyInfo) :
    sessionExtraction (turns ++ [e]) = e := by
  unfold sessionExtraction
  rw [List.foldl_append]
  rfl

/-! ## Orchestrator lemmas shared by claims C1 and C2 -/

theorem rtRun_append (a b : List RtEvent) (s : BridgeState) :
    rtRun (a ++ b) s = rtRun b (rtRun a s) := by
  simp [rtRun, List.foldl_append]

theorem rtRun_cons (e : RtEvent) (t : List RtEvent) (s : BridgeState) :
    rtRun (e :: t) s = rtRun t (rtStep s e) := by
  simp [rtRun]

theorem rtStep_of_exited {s : BridgeState} (h : s.exited = true)
    (e : RtEvent) : rtStep s e = s := by
  unfold rtStep
  rw [if_pos h]

/-- Once the loop has exited, no further trace event is processed. -/
theorem rtRun_of_exited {s : BridgeState} (h : s.exited = true)
    (t : List RtEvent) : rtRun t s = s := by
  induction t with
  | nil => rfl
  | cons e t ih => rw [rtRun_cons, rtStep_of_exited h, ih]

theorem outputFold_of_no_fc (output : List OutputItem) (s : BridgeState)
    (h : ∀ item ∈ output, item = OutputItem.other) :
    output.foldl outputItemStep s = s := by
  induction output generalizing s with
  | nil => rfl
  | cons item rest ih =>
    have h1 : item = OutputItem.other := h item (by simp)
    rw [List.foldl_cons, h1]
    exact ih s (fun it hit => h it (by simp [hit]))

/-- A step on an event holding no function-call item leaves the case
flag clear and the createCase and end-call counters unchanged. -/
theorem rtStep_no_fc (s : BridgeState) (e : RtEvent)
    (hfc : hasFunctionCall e = false) (hcc : s.caseCreated = false) :
    (rtStep s e).caseCreated = false ∧
    (rtStep s e).createCalls = s.createCalls ∧
    (rtStep s e).endCalls = s.endCalls := by
  by_cases hex : s.exited = true
  · rw [rtStep_of_exited hex]
    exact ⟨hcc, rfl, rfl⟩
  · unfold rtStep
    rw [if_neg hex]
    cases e with
    | audioDelta pcm =>
      cases pcm with
      | none => exact ⟨hcc, rfl, rfl⟩
      | some bytes =>
        dsimp only
        cases hpc : pcm_24k_to_mulaw_8k bytes with
        | error u => simp [hcc]
        | ok ulaw =>
          by_cases hu : ulaw = [] <;> simp [hu, hcc]
    | audioDone =>
      dsimp only
      rw [if_neg (by simpa using hcc)]
      exact ⟨hcc, rfl, rfl⟩
    | responseDone output =>
      dsimp only
      have hothers : ∀ item ∈ output, item = OutputItem.other := by
        intro item hit
        cases item with
        | functionCall a b c =>
          exfalso
          have : output.any (fun item =>
              match item with
              | .functionCall _ _ _ => true
              | .other => false) = true :=
            List.any_of_mem hit rfl
          simp [hasFunctionCall, this] at hfc
        | other => rfl
      rw [outputFold_of_no_fc output s hothers]
      exact ⟨hcc, rfl, rfl⟩
    | errorEvent => exact ⟨hcc, rfl, rfl⟩
    | otherEvent => exact ⟨hcc, rfl, rfl⟩

/-- Through a trace without function-call items, a session that has not
created a case stays that way: no createCase invocation and no end-call
operation happens. -/
theorem rtRun_no_fc (t : List RtEvent) (s : BridgeState)
    (hfc : ∀ e ∈ t, hasFunctionCall e = false) (hcc : s.caseCreated = false) :
    (rtRun t s).caseCreated = false ∧
    (rtRun t s).createCalls = s.createCalls ∧
    (rtRun t s).endCalls = s.endCalls := by
  induction t generalizing s with
  | nil => exact ⟨hcc, rfl, rfl⟩
  | cons e t ih =>
    have hstep := rtStep_no_fc s e (hfc e (by simp)) hcc
    have ih' := ih (rtStep s e) (fun x hx => hfc x (by simp [hx])) hstep.1
    rw [rtRun_cons]
    exact ⟨ih'.1, by rw [ih'.2.1, hstep.2.1], by rw [ih'.2.2, hstep.2.2]⟩

/-- A well-formed audio delta only marks the assistant as speaking and
forwards one media payload. -/
theorem rtStep_good_delta (s : BridgeState) (e : RtEvent) (h : goodDelta e)
    (hex : s.exited = false) :
    rtStep s e = { s with aiSpeaking := true, mediaSent := s.mediaSent + 1 } := by
  obtain ⟨pcm, out, rfl, hok, hne⟩ := h
  unfold rtStep
  rw [if_neg (by simp [hex])]
  dsimp only
  rw [hok]
  simp [hne]

/-- Forwarding a run of well-formed audio deltas sends one media event
each and changes nothing else observable. -/
theorem rtRun_good_deltas (ds : List RtEvent) (s : BridgeState)
    (h : ∀ e ∈ ds, goodDelta e) (hex : s.exited = false) :
    (rtRun ds s).caseCreated = s.caseCreated ∧
    (rtRun ds s).createCalls = s.createCalls ∧
    (rtRun ds s).endCalls = s.endCalls ∧
    (rtRun ds s).exited = false ∧
    (rtRun ds s).mediaSent = s.mediaSent + ds.length := by
  induction ds generalizing s with
  | nil => exact ⟨rfl, rfl, rfl, hex, rfl⟩
  | cons e ds ih =>
    have hstep := rtStep_good_delta s e (h e (by simp)) hex
    rw [rtRun_cons, hstep]
    have ih' := ih { s with aiSpeaking := true, mediaSent := s.mediaSent + 1 }
      (fun x hx => h x (by simp [hx])) hex
    refine ⟨ih'.1, ih'.2.1, ih'.2.2.1, ih'.2.2.2.1, ?_⟩
    rw [ih'.2.2.2.2]
    simp only [List.length_cons]
    omega

/-- Processing one response.done that carries a single function-call
item invokes the tool handler and marks the case created. -/
theorem rtStep_single_fc (s : BridgeState) (cid fn : String)
    (args : Option ToolArgs) (hex : s.exited = false) :
    rtStep s (RtEvent.responseDone [OutputItem.functionCall cid fn args]) =
      { s with
        createCalls := s.createCalls +
          (if toolCallCreates fn args = true then 1 else 0)
        caseCreated := true } := by
  unfold rtStep
  rw [if_neg (by simp [hex])]
  simp [outputItemStep]

theorem toolCallCreates_emergency (args : ToolArgs) :
    toolCallCreates "create_emergency_case" (some args) = true := by
  simp [toolCallCreates]

/-- An audio-done event after the case was created performs the end-call
control operation and exits the loop. -/
theorem rtStep_audioDone_case (s : BridgeState) (hex : s.exited = false)
    (hcc : s.caseCreated = true) :
    rtStep s RtEvent.audioDone =
      { s with
        aiSpeaking := false
        endCalls := s.endCalls + 1
        exited := true } := by
  unfold rtStep
  rw [if_neg (by simp [hex])]
  dsimp only
  rw [if_pos (by simpa using hcc)]

/-! ## Claim C1 -/

/-- A concrete tool invocation with five of the six required fields:
severity is missing. -/
def argsFiveOfSix : ToolArgs :=
  { full_name := some "Tom Larsson"
    social_security_number := some "900101-1234"
    location := some "Stockholm"
    emergency_description := some "chest pain"
    category := some "medical"
    severity := none }

/-- The trace delivering that invocation followed by the end of the next
spoken turn. -/
def traceFiveOfSix : List RtEvent :=
  [RtEvent.responseDone
     [OutputItem.functionCall "call_1" "create_emergency_case"
       (some argsFiveOfSix)],
   RtEvent.audioDone]

/-- Claim C1 counterexample: on a tool invocation with five of six
fields present (severity missing), the orchestrator invokes createCase
anyway (`_handle_tool_call` reads every field with `args.get` and calls
`create_case` without validating any of them), sets `case_created`, and
the next completed audio turn triggers the end-call operation and exits
the loop — the call neither skips createCase nor stays listening. -/
theorem C1_counterexample :
    (rtRun traceFiveOfSix initBridgeState).createCalls = 1 ∧
    (rtRun traceFiveOfSix initBridgeState).endCalls = 1 ∧
    (rtRun traceFiveOfSix initBridgeState).exited = true := by
  refine ⟨?_, ?_, ?_⟩ <;> rfl

/-- Claim C1 (amended): the orchestrator does not validate the six
required fields.  For every parsed `create_emergency_case` invocation,
with any fields missing, it invokes createCase exactly once, marks the
case created, and the next completed audio turn issues the end-call
operation and exits the loop; the call does not remain listening. -/
theorem C1_missing_field_still_creates (args : ToolArgs) (cid : String)
    (_hmiss : missingRequired args) :
    (rtRun [RtEvent.responseDone
        [OutputItem.functionCall cid "create_emergency_case" (some args)],
      RtEvent.audioDone] initBridgeState).createCalls = 1 ∧
    (rtRun [RtEvent.responseDone
        [OutputItem.functionCall cid "create_emergency_case" (some args)],
      RtEvent.audioDone] initBridgeState).endCalls = 1 ∧
    (rtRun [RtEvent.responseDone
        [OutputItem.functionCall cid "create_emergency_case" (some args)],
      RtEvent.audioDone] initBridgeState).exited = true := by
  rw [rtRun_cons, rtStep_single_fc _ _ _ _ rfl, toolCallCreates_emergency]
  rw [rtRun_cons, rtStep_audioDone_case _ rfl rfl]
  refine ⟨rfl, rfl, rfl⟩

/-- Claim C1 witness: the amended theorem applied to the concrete
five-of-six invocation. -/
theorem C1_witness :
    (rtRun [RtEvent.responseDone
        [OutputItem.functionCall "call_1" "create_emergency_case"
          (some argsFiveOfSix)],
      RtEvent.audioDone] initBridgeState).createCalls = 1 ∧
    (rtRun [RtEvent.responseDone
        [OutputItem.functionCall "call_1" "create_emergency_case"
          (some argsFiveOfSix)],
      RtEvent.audioDone] initBridgeState).endCalls = 1 ∧
    (rtRun [RtEvent.responseDone
        [OutputItem.functionCall "call_1" "create_emergency_case"
          (some argsFiveOfSix)],
      RtEvent.audioDone] initBridgeState).exited = true :=
  C1_missing_field_still_creates argsFiveOfSix "call_1"
    (Or.inr (Or.inr (Or.inr (Or.inr (Or.inr rfl)))))

/-! ## Claim C2 -/

/-- Claim C2: on a realtime trace whose prefix carries no function-call
item and does not end the loop, followed by one response.done holding a
`create_emergency_case` call with all six required fields, then the
spoken goodbye turn (well-formed audio deltas and its done marker), the
orchestrator invokes createCase exactly once, forwards each goodbye
delta as one media event, issues exactly one end-call control operation
and exits the loop, ignoring everything after. -/
theorem C2_full_tool_call_flow (pre deltas post : List RtEvent)
    (cid : String) (args : ToolArgs) (_hsix : allSixPresent args)
    (hpre_fc : ∀ e ∈ pre, hasFunctionCall e = false)
    (hpre_ex : (rtRun pre initBridgeState).exited = false)
    (hdeltas : ∀ e ∈ deltas, goodDelta e) :
    (rtRun (pre ++ [RtEvent.responseDone
        [OutputItem.functionCall cid "create_emergency_case" (some args)]] ++
      deltas ++ [RtEvent.audioDone] ++ post) initBridgeState).createCalls = 1 ∧
    (rtRun (pre ++ [RtEvent.responseDone
        [OutputItem.functionCall cid "create_emergency_case" (some args)]] ++
      deltas ++ [RtEvent.audioDone] ++ post) initBridgeState).endCalls = 1 ∧
    (rtRun (pre ++ [RtEvent.responseDone
        [OutputItem.functionCall cid "create_emergency_case" (some args)]] ++
      deltas ++ [RtEvent.audioDone] ++ post) initBridgeState).exited = true ∧
    (rtRun (pre ++ [RtEvent.responseDone
        [OutputItem.functionCall cid "create_emergency_case" (some args)]] ++
      deltas ++ [RtEvent.audioDone] ++ post) initBridgeState).mediaSent =
      (rtRun pre initBridgeState).mediaSent + deltas.length := by
  have hpre := rtRun_no_fc pre initBridgeState hpre_fc rfl
  set s1 := rtRun pre initBridgeState with hs1
  have hstep1 := rtStep_single_fc s1 cid "create_emergency_case" (some args)
    hpre_ex
  rw [toolCallCreates_emergency] at hstep1
  set s2 : BridgeState :=
    { s1 with createCalls := s1.createCalls + 1, caseCreated := true }
    with hs2
  have hs2ex : s2.exited = false := hpre_ex
  have hdel := rtRun_good_deltas deltas s2 hdeltas hs2ex
  set s3 := rtRun deltas s2 with hs3
  have hstep2 := rtStep_audioDone_case s3 hdel.2.2.2.1
    (by rw [hdel.1])
  have hsplit : rtRun (pre ++ [RtEvent.responseDone
      [OutputItem.functionCall cid "create_emergency_case" (some args)]] ++
      deltas ++ [RtEvent.audioDone] ++ post) initBridgeState =
      rtRun post (rtStep s3 RtEvent.audioDone) := by
    rw [rtRun_append, rtRun_append, rtRun_append, rtRun_append]
    rw [← hs1]
    have : rtRun [RtEvent.responseDone
        [OutputItem.functionCall cid "create_emergency_case" (some args)]] s1 =
        s2 := by
      rw [rtRun_cons, hstep1]
      rfl
    rw [this, ← hs3]
    rw [rtRun_cons]
    rfl
  rw [hsplit, hstep2, rtRun_of_exited rfl]
  refine ⟨?_, ?_, rfl, ?_⟩
  · show s3.createCalls = 1
    rw [hdel.2.1]
    show s1.createCalls + 1 = 1
    rw [hpre.2.1]
    rfl
  · show s3.endCalls + 1 = 1
    rw [hdel.2.2.1]
    show s2.endCalls + 1 = 1
    rw [hpre.2.2]
    rfl
  · show s3.mediaSent = s1.mediaSent + deltas.length
    rw [hdel.2.2.2.2]

/-- A concrete tool invocation carrying all six required fields. -/
def argsAllSix : ToolArgs :=
  { full_name := some "Tom Larsson"
    social_security_number := some "900101-1234"
    location := some "Stockholm"
    emergency_description := some "chest pain"
    category := some "medical"
    severity := some 4 }

/-- Claim C2 witness: the flow theorem applied to the concrete trace
with an empty prefix, one goodbye delta of one zero sample, and a
trailing event that is never processed. -/
theorem C2_witness :
    (rtRun ([] ++ [RtEvent.responseDone
        [OutputItem.functionCall "call_2" "create_emergency_case"
          (some argsAllSix)]] ++
      [RtEvent.audioDelta (some [0, 0])] ++ [RtEvent.audioDone] ++
      [RtEvent.otherEvent]) initBridgeState).createCalls = 1 ∧
    (rtRun ([] ++ [RtEvent.responseDone
        [OutputItem.functionCall "call_2" "create_emergency_case"
          (some argsAllSix)]] ++
      [RtEvent.audioDelta (some [0, 0])] ++ [RtEvent.audioDone] ++
      [RtEvent.otherEvent]) initBridgeState).endCalls = 1 ∧
    (rtRun ([] ++ [RtEvent.responseDone
        [OutputItem.functionCall "call_2" "create_emergency_case"
          (some argsAllSix)]] ++
      [RtEvent.audioDelta (some [0, 0])] ++ [RtEvent.audioDone] ++
      [RtEvent.otherEvent]) initBridgeState).exited = true ∧
    (rtRun ([] ++ [RtEvent.responseDone
        [OutputItem.functionCall "call_2" "create_emergency_case"
          (some argsAllSix)]] ++
      [RtEvent.audioDelta (some [0, 0])] ++ [RtEvent.audioDone] ++
      [RtEvent.otherEvent]) initBridgeState).mediaSent =
      (rtRun [] initBridgeState).mediaSent + 1 :=
  C2_full_tool_call_flow [] [RtEvent.audioDelta (some [0, 0])]
    [RtEvent.otherEvent] "call_2" argsAllSix
    ⟨rfl, rfl, rfl, rfl, rfl, rfl⟩
    (by intro e he; simp at he)
    rfl
    (by
      intro e he
      rw [List.mem_singleton] at he
      exact ⟨[0, 0], [231], by rw [he], rfl, by decide⟩)

end VoiceBridge
